import Mathlib

/-!
Shallow embedding of the recipe-nutrition RAG core
(`src/dietary_analyzer.py`, `src/substitution_engine.py`,
`src/simple_vector_store.py`, `src/rag_pipeline.py`,
`src/data_processor.py`) in Lean 4.

Modelling conventions:
* Python strings are modelled as `List Char` (`PyStr`), since Python strings
  are sequences of characters and all the string operations the code uses
  (`lower`, `strip`, `split`, `in`, slicing, `replace`) are character-wise.
  String literals enter through `String.data`.
* Python floats are modelled as `ℚ`.  All the arithmetic performed by the
  code (sums, means, products by decimal constants, division, comparison)
  is exact on the values the code manipulates, so `ℚ` is a faithful model
  of the intended real-number semantics.
* Python dicts with string keys are modelled as association lists
  (`List (PyStr × _)`); `dict.get(k, d)` is `(l.lookup k).getD d`.
  Dict construction keyed by a loop variable (so duplicate keys collapse to
  one entry, first position kept, value a function of the key alone) is
  modelled by deduplicating the key list first (`pyDedup`).
* Code that can raise returns `Except PyError _`
  (`ZeroDivisionError` for `x / 0`, `TypeError` for `x in 5` etc.).
* Where the code's loops only append to result lists, the loop is written
  as `map`/`filter`/`flatMap` over the same sequence in the same order,
  which is element-for-element the same computation.
* `list.sort(key=…, reverse=True)` is a stable descending sort by the key;
  a stable sort is uniquely determined by key and input order, so it is
  modelled by stable insertion sort `sortByDesc`.
-/

/-- Python string: sequence of characters. -/
abbrev PyStr := List Char

/-- Coerce a Lean string literal to the Python-string model. -/
def pys (s : String) : PyStr := s.data

/-- `s.lower()` (ASCII case folding, which covers all data in this repo). -/
def pyLower (s : PyStr) : PyStr := s.map Char.toLower

/-- `s.strip()`: remove leading and trailing whitespace. -/
def pyStrip (s : PyStr) : PyStr :=
  ((s.dropWhile Char.isWhitespace).reverse.dropWhile Char.isWhitespace).reverse

/-- One step of `needle in haystack` (Python substring test):
`needle` occurs as a contiguous substring of `haystack`. -/
def pyInStr (needle : PyStr) : PyStr → Bool
  | [] => needle.isEmpty
  | c :: rest => needle.isPrefixOf (c :: rest) || pyInStr needle rest

/-- `s.split()`: split on whitespace runs, discarding empty tokens.
`acc` holds the (reversed) current token. -/
def pySplitWsAux (acc : PyStr) : PyStr → List PyStr
  | [] => if acc.isEmpty then [] else [acc.reverse]
  | c :: rest =>
    if c.isWhitespace then
      if acc.isEmpty then pySplitWsAux [] rest
      else acc.reverse :: pySplitWsAux [] rest
    else pySplitWsAux (c :: acc) rest

/-- `s.split()` with no separator argument. -/
def pySplitWs (s : PyStr) : List PyStr := pySplitWsAux [] s

/-- `s.replace(pat, '')` for nonempty `pat`: drop every (leftmost,
non-overlapping) occurrence of `pat`.  `fuel` bounds the recursion; it is
called with `fuel = s.length`, which suffices because every step consumes at
least one character, so the `fuel = 0` branch is never reached on those
calls. -/
def pyRemoveAllAux (pat : PyStr) : Nat → PyStr → PyStr
  | 0, s => s
  | _ + 1, [] => []
  | fuel + 1, c :: rest =>
    if pat.isPrefixOf (c :: rest) && !pat.isEmpty then
      pyRemoveAllAux pat fuel ((c :: rest).drop pat.length)
    else
      c :: pyRemoveAllAux pat fuel rest

/-- `s.replace(pat, '')`. -/
def pyRemoveAll (pat s : PyStr) : PyStr := pyRemoveAllAux pat s.length s

/-- `text.split(sep)[0]` for a nonempty separator: the prefix of `text`
before the first occurrence of `sep` (the whole string if `sep` does not
occur). -/
def pyTakeUntilSep (sep : PyStr) : PyStr → PyStr
  | [] => []
  | c :: rest =>
    if sep.isPrefixOf (c :: rest) then []
    else c :: pyTakeUntilSep sep rest

/-- Match the regex `\d+\s*unit` at the head of `s`: maximal digit run (at
least one digit), maximal whitespace run, then the literal `unit`.  No
backtracking arises because digits, whitespace and the (alphabetic) unit
names are disjoint character classes.  Returns the remainder after the
match. -/
def tryMatchNumUnit (unit s : PyStr) : Option PyStr :=
  let digits := s.takeWhile Char.isDigit
  if digits.isEmpty then none
  else
    let afterWs := (s.dropWhile Char.isDigit).dropWhile Char.isWhitespace
    if unit.isPrefixOf afterWs then some (afterWs.drop unit.length)
    else none

/-- `re.sub(rf'\d+\s*{unit}', '', s)`: scan left to right, removing each
match.  `fuel = s.length` suffices: a successful match consumes at least
one digit, so every step shortens the string. -/
def stripNumUnitAux (unit : PyStr) : Nat → PyStr → PyStr
  | 0, s => s
  | _ + 1, [] => []
  | fuel + 1, c :: rest =>
    match tryMatchNumUnit unit (c :: rest) with
    | some rem => stripNumUnitAux unit fuel rem
    | none => c :: stripNumUnitAux unit fuel rest

/-- `re.sub(rf'\d+\s*{unit}', '', s)`. -/
def stripNumUnit (unit s : PyStr) : PyStr := stripNumUnitAux unit s.length s

/-- Python `dict` key set built by assigning `d[k] = f k` while iterating a
list of keys: keeps the first position of each key.  Values are functions of
the key alone everywhere this pattern occurs in the source. -/
def pyDedupAux (seen : List PyStr) : List PyStr → List PyStr
  | [] => []
  | k :: ks =>
    if seen.contains k then pyDedupAux seen ks
    else k :: pyDedupAux (k :: seen) ks

/-- Deduplicated key list, first occurrences kept (Python dict key order). -/
def pyDedup (l : List PyStr) : List PyStr := pyDedupAux [] l

/-- `max(0.0, min(1.0, q))`. -/
def pyClamp01 (q : ℚ) : ℚ := max 0 (min 1 q)

/-- `sum(scores) / len(scores) if scores else 1.0` — the mean-or-neutral
pattern used by every dimension aggregation in the source. -/
def meanScoreOrOne (scores : List ℚ) : ℚ :=
  if scores.isEmpty then 1 else scores.sum / scores.length

/-- Stable insertion (descending by `key`): `x` goes before the first
element whose key is `≤ key x`.  Used by `sortByDesc`. -/
def insertByDesc {α : Type} (key : α → ℚ) (x : α) : List α → List α
  | [] => [x]
  | y :: ys =>
    if key y ≤ key x then x :: y :: ys
    else y :: insertByDesc key x ys

/-- `list.sort(key=key, reverse=True)`: stable descending sort.  Python's
sort is stable, and a stable sort is uniquely determined by the key and the
input order, so stable insertion sort computes the same list. -/
def sortByDesc {α : Type} (key : α → ℚ) : List α → List α
  | [] => []
  | x :: xs => insertByDesc key x (sortByDesc key xs)

/-- Python exceptions the modelled code can raise. -/
inductive PyError : Type where
  | zeroDivisionError : PyError
  | typeError : PyError
deriving DecidableEq, Repr

/-! ## Data model

A recipe record, with exactly the fields the modelled code reads.
`ingredients` holds the `name` field of each ingredient dict (the only
subfield the core reads); unreferenced JSON fields (description,
instructions, prep time, …) are omitted. -/

/-- A metadata value as stored in the vector index: Python `None`, a string,
a list of strings, or a number.  This covers every value
`get_recipe_metadata` and the dynamic-recipe metadata construction produce. -/
inductive MVal : Type where
  | none : MVal
  | str : PyStr → MVal
  | list : List PyStr → MVal
  | num : ℚ → MVal
deriving DecidableEq, Repr

/-- Recipe record (see `data_processor.py` / `recipe_integration.py`). -/
structure Recipe where
  id : MVal
  title : PyStr
  cuisine_type : Option PyStr
  dietary_tags : List PyStr
  health_benefits : List PyStr
  ingredients : List PyStr
  nutritional_info : List (PyStr × ℚ)
deriving DecidableEq, Repr

/-- Per-health-condition guideline entry (`dietary_guidelines.json`,
`health_conditions` table). -/
structure HealthCondInfo where
  recommended_benefits : List PyStr
  avoid_nutrients : List PyStr
  recommended_nutrients : List PyStr
deriving DecidableEq, Repr

/-- One entry of a guideline substitution list, with the defaults of
`substitute_info.get('name','')` / `.get('ratio','1:1')` / `.get('notes','')`
already applied. -/
structure SubInfo where
  name : PyStr
  ratio : PyStr
  notes : PyStr
deriving DecidableEq, Repr

/-- The dietary guidelines tables (`dietary_guidelines.json`): restriction →
excluded ingredients, allergy → incompatible ingredients, condition info,
ingredient → substitution list.  A key absent from a table models both a
missing key and a present-but-empty info dict (the code treats the two
identically through `.get(…, default)`). -/
structure Guidelines where
  dietary_restrictions : List (PyStr × List PyStr)
  allergies : List (PyStr × List PyStr)
  health_conditions : List (PyStr × HealthCondInfo)
  ingredient_substitutions : List (PyStr × List SubInfo)
deriving DecidableEq, Repr

/-- Per-ingredient record of `nutritional_data.json`'s `ingredients` table:
`dietary_tags`, the top-level numeric entries (read by
`_calculate_nutritional_similarity`), and the `nutrition` sub-dict (read by
the boost/reduction suggestion search). -/
structure IngData where
  dietary_tags : List PyStr
  top : List (PyStr × ℚ)
  nutrition : List (PyStr × ℚ)
deriving DecidableEq, Repr

/-- The known-ingredient nutrient database. -/
abbrev NutDB := List (PyStr × IngData)

/-- Default for `ingredients.get(name, {})`: all projections of an empty
dict. -/
def IngData.empty : IngData := ⟨[], [], []⟩

/-! ## `DietaryAnalyzer` (`src/dietary_analyzer.py`) -/

/-- `DietaryAnalyzer._ingredient_matches`: exact equality, substring in
either direction, or word-level substring overlap. -/
def ingredientMatches (pattern ingredient : PyStr) : Bool :=
  pattern == ingredient ||
  pyInStr pattern ingredient ||
  pyInStr ingredient pattern ||
  (pySplitWs pattern).any (fun pw =>
    (pySplitWs ingredient).any (fun iw => pyInStr pw iw || pyInStr iw pw))

/-- The `conflicting_ingredients` list built by the nested loops in
`_check_dietary_restrictions` / `_check_allergies`: for each recipe
ingredient, one copy per excluded/incompatible entry it matches. -/
def conflictingFor (excluded recipeIngredients : List PyStr) : List PyStr :=
  recipeIngredients.flatMap (fun ing =>
    excluded.filterMap (fun ex =>
      if ingredientMatches (pyLower ex) ing then some ing else none))

/-- Per-restriction result record. -/
structure RestrictionItem where
  compatible : Bool
  score : ℚ
  has_restriction_tag : Bool
  conflicting_ingredients : List PyStr
  excluded_ingredients : List PyStr
deriving DecidableEq, Repr

/-- Result of `_check_dietary_restrictions`. -/
structure RestrictionCheck where
  overall_compatible : Bool
  compatibility_score : ℚ
  restriction_results : List (PyStr × RestrictionItem)
deriving DecidableEq, Repr

/-- The per-restriction loop body of `_check_dietary_restrictions`. -/
def restrictionResultFor (g : Guidelines) (recipeIngredients recipeTags : List PyStr)
    (restriction : PyStr) : RestrictionItem :=
  let excluded := (g.dietary_restrictions.lookup restriction).getD []
  let hasTag := recipeTags.contains restriction
  let conflicting := conflictingFor excluded recipeIngredients
  let isCompatible := hasTag && conflicting.isEmpty
  let score : ℚ :=
    if !conflicting.isEmpty then 0
    else if !hasTag then 0.5
    else 1
  ⟨isCompatible, score, hasTag, conflicting, excluded⟩

/-- `DietaryAnalyzer._check_dietary_restrictions`. -/
def checkDietaryRestrictions (g : Guidelines) (r : Recipe)
    (userRestrictions : List PyStr) : RestrictionCheck :=
  let recipeIngredients := r.ingredients.map pyLower
  let recipeTags := r.dietary_tags
  if userRestrictions.isEmpty then ⟨true, 1, []⟩
  else
    let results := (pyDedup userRestrictions).map (fun restriction =>
      (restriction, restrictionResultFor g recipeIngredients recipeTags restriction))
    let overall := meanScoreOrOne (results.map (fun p => p.2.score))
    ⟨decide (overall ≥ 0.7), overall, results⟩

/-- Per-allergy result record. -/
structure AllergyItem where
  compatible : Bool
  score : ℚ
  conflicting_ingredients : List PyStr
  incompatible_ingredients : List PyStr
deriving DecidableEq, Repr

/-- Result of `_check_allergies`. -/
structure AllergyCheck where
  overall_compatible : Bool
  compatibility_score : ℚ
  allergy_results : List (PyStr × AllergyItem)
deriving DecidableEq, Repr

/-- The per-allergy loop body of `_check_allergies`. -/
def allergyResultFor (g : Guidelines) (recipeIngredients : List PyStr)
    (allergy : PyStr) : AllergyItem :=
  let incompatible := (g.allergies.lookup allergy).getD []
  let conflicting := conflictingFor incompatible recipeIngredients
  let isCompatible := conflicting.isEmpty
  ⟨isCompatible, if isCompatible then 1 else 0, conflicting, incompatible⟩

/-- `DietaryAnalyzer._check_allergies`. -/
def checkAllergies (g : Guidelines) (r : Recipe)
    (userAllergies : List PyStr) : AllergyCheck :=
  let recipeIngredients := r.ingredients.map pyLower
  if userAllergies.isEmpty then ⟨true, 1, []⟩
  else
    let results := (pyDedup userAllergies).map (fun allergy =>
      (allergy, allergyResultFor g recipeIngredients allergy))
    let overall := meanScoreOrOne (results.map (fun p => p.2.score))
    ⟨decide (overall ≥ 0.7), overall, results⟩

/-- `DietaryAnalyzer._analyze_nutritional_content`: start at 1.0, subtract
0.2 per present-and-positive avoid-nutrient, add 0.1 per
present-and-positive recommended nutrient, clamp to [0,1] at the end. -/
def analyzeNutritionalContent (nutritionalInfo : List (PyStr × ℚ))
    (recommendedNutrients avoidNutrients : List PyStr) : ℚ :=
  let s1 := avoidNutrients.foldl (fun s n =>
    match nutritionalInfo.lookup n with
    | some v => if v > 0 then s - 0.2 else s
    | none => s) 1
  let s2 := recommendedNutrients.foldl (fun s n =>
    match nutritionalInfo.lookup n with
    | some v => if v > 0 then s + 0.1 else s
    | none => s) s1
  pyClamp01 s2

/-- Per-condition result record. -/
structure HealthItem where
  compatible : Bool
  score : ℚ
  has_recommended_benefits : Bool
  nutritional_score : ℚ
deriving DecidableEq, Repr

/-- Result of `_check_health_conditions`. -/
structure HealthCheck where
  overall_compatible : Bool
  compatibility_score : ℚ
  health_results : List (PyStr × HealthItem)
deriving DecidableEq, Repr

/-- `DietaryAnalyzer._check_health_conditions`. -/
def checkHealthConditions (g : Guidelines) (r : Recipe)
    (userHealthConditions : List PyStr) : HealthCheck :=
  let recipeBenefits := r.health_benefits
  let nutritionalInfo := r.nutritional_info
  if userHealthConditions.isEmpty then ⟨true, 1, []⟩
  else
    let results := (pyDedup userHealthConditions).map (fun condition =>
      let info := (g.health_conditions.lookup condition).getD ⟨[], [], []⟩
      let hasBenefits := info.recommended_benefits.any
        (fun b => recipeBenefits.contains b)
      let nutritionalScore := analyzeNutritionalContent nutritionalInfo
        info.recommended_nutrients info.avoid_nutrients
      let score : ℚ := (if hasBenefits then 1 else 0) * 0.6 + nutritionalScore * 0.4
      (condition, HealthItem.mk (decide (score ≥ 0.6)) score hasBenefits nutritionalScore))
    let overall := meanScoreOrOne (results.map (fun p => p.2.score))
    ⟨decide (overall ≥ 0.6), overall, results⟩

/-- `DietaryAnalyzer._calculate_compatibility_score`: hard veto on a zero
allergy or restriction dimension, otherwise the 0.4/0.4/0.2 fusion. -/
def calculateCompatibilityScore (rc : RestrictionCheck) (ac : AllergyCheck)
    (hc : HealthCheck) : ℚ :=
  if ac.compatibility_score = 0 then 0
  else if rc.compatibility_score = 0 then 0
  else rc.compatibility_score * 0.4 + ac.compatibility_score * 0.4 +
    hc.compatibility_score * 0.2

/-- Result of `analyze_recipe_compatibility`.  The derived `issues` and
`suggestions` display strings are not modelled; no modelled computation
reads them. -/
structure CompatResult where
  overall_compatible : Bool
  overall_score : ℚ
  restriction_compatibility : RestrictionCheck
  allergy_compatibility : AllergyCheck
  health_compatibility : HealthCheck
deriving DecidableEq, Repr

/-- `DietaryAnalyzer.analyze_recipe_compatibility`. -/
def analyzeRecipeCompatibility (g : Guidelines) (r : Recipe)
    (userRestrictions userAllergies userHealthConditions : List PyStr) :
    CompatResult :=
  let rc := checkDietaryRestrictions g r userRestrictions
  let ac := checkAllergies g r userAllergies
  let hc := checkHealthConditions g r userHealthConditions
  let overall := calculateCompatibilityScore rc ac hc
  ⟨decide (overall ≥ 0.7), overall, rc, ac, hc⟩

/-! ## `SubstitutionEngine` (`src/substitution_engine.py`) -/

/-- `SubstitutionEngine._normalize_ingredient_name`: lowercase, strip, drop
modifier words, then drop `\d+\s*unit` quantity patterns (the regex has no
backtracking here since digits, whitespace and unit letters are disjoint
character classes). -/
def normalizeIngredientName (s : PyStr) : PyStr :=
  let n0 := pyStrip (pyLower s)
  let modifiers := [pys "fresh", pys "dried", pys "frozen", pys "canned",
    pys "organic", pys "raw", pys "cooked"]
  let n1 := modifiers.foldl (fun acc m => pyStrip (pyRemoveAll m acc)) n0
  let units := [pys "cup", pys "tbsp", pys "tsp", pys "oz", pys "lb",
    pys "g", pys "kg", pys "ml", pys "l"]
  units.foldl (fun acc u => pyStrip (stripNumUnit u acc)) n1

/-- `SubstitutionEngine._calculate_substitution_compatibility`. -/
def calcSubstitutionCompatibility (g : Guidelines) (db : NutDB)
    (substitute : PyStr) (restrictions allergies : List PyStr) : ℚ :=
  if restrictions.isEmpty && allergies.isEmpty then 1
  else
    let tags := ((db.lookup substitute).getD IngData.empty).dietary_tags
    let s1 := restrictions.foldl (fun s restriction =>
      let excluded := (g.dietary_restrictions.lookup restriction).getD []
      if (excluded.map pyLower).contains (pyLower substitute) then s - 0.5
      else if tags.contains restriction then s + 0.2
      else s) 1
    -- the allergy loop zeroes the score and breaks on the first match
    let s2 :=
      if allergies.any (fun a =>
        (((g.allergies.lookup a).getD []).map pyLower).contains (pyLower substitute))
      then 0 else s1
    pyClamp01 s2

/-- `SubstitutionEngine._calculate_nutritional_similarity`.  The arguments
are `ingredients.get(name, {})` values: `none` models a missing (or empty,
which every code path treats identically) entry. -/
def calcNutritionalSimilarity (o1 o2 : Option IngData) : ℚ :=
  match o1, o2 with
  | some d1, some d2 =>
    let nutrients := [pys "calories", pys "protein", pys "carbohydrates",
      pys "fat", pys "fiber"]
    let sims := nutrients.filterMap (fun n =>
      let v1 := (d1.top.lookup n).getD 0
      let v2 := (d2.top.lookup n).getD 0
      if v1 > 0 && v2 > 0 then some (1 - |v1 - v2| / max v1 v2) else none)
    if sims.isEmpty then 0 else sims.sum / sims.length
  | _, _ => 0

/-- A substitution option record. -/
structure SubOption where
  original_ingredient : PyStr
  substitute_name : PyStr
  ratio : PyStr
  notes : PyStr
  compatibility_score : ℚ
  nutritional_similarity : ℚ
  overall_score : ℚ
deriving DecidableEq, Repr

/-- `SubstitutionEngine._create_substitution_option` (always returns a
truthy dict, so the caller's `if option:` test always passes). -/
def createSubstitutionOption (g : Guidelines) (db : NutDB)
    (originalIngredient : PyStr) (si : SubInfo)
    (restrictions allergies : List PyStr) : SubOption :=
  let c := calcSubstitutionCompatibility g db si.name restrictions allergies
  let ns := calcNutritionalSimilarity (db.lookup originalIngredient) (db.lookup si.name)
  ⟨originalIngredient, si.name, si.ratio, si.notes, c, ns, c * 0.7 + ns * 0.3⟩

/-- `SubstitutionEngine._find_ingredient_based_substitutions`: scan the
whole nutrient database for candidates with compatibility > 0.5 and
nutritional similarity > 0.3. -/
def findIngredientBasedSubstitutions (g : Guidelines) (db : NutDB)
    (ingredient : PyStr) (restrictions allergies : List PyStr) :
    List SubOption :=
  db.filterMap (fun p =>
    if p.1 ≠ ingredient then
      let c := calcSubstitutionCompatibility g db p.1 restrictions allergies
      if c > 0.5 then
        let ns := calcNutritionalSimilarity (db.lookup ingredient) (some p.2)
        if ns > 0.3 then
          some ⟨ingredient, p.1, pys "1:1",
            pys "Nutritionally similar alternative", c, ns, c * 0.7 + ns * 0.3⟩
        else none
      else none
    else none)

/-- `SubstitutionEngine.find_substitutions`: direct guideline substitutions
(for the raw ingredient name) plus database-wide candidates (for the
normalized name), then `sort(key=lambda x: x['compatibility_score'],
reverse=True)`. -/
def findSubstitutions (g : Guidelines) (db : NutDB) (ingredient : PyStr)
    (restrictions allergies : List PyStr) : List SubOption :=
  let normalized := normalizeIngredientName ingredient
  let direct :=
    match g.ingredient_substitutions.lookup normalized with
    | none => []
    | some subs => subs.map (fun si =>
        createSubstitutionOption g db ingredient si restrictions allergies)
  let based := findIngredientBasedSubstitutions g db normalized restrictions allergies
  sortByDesc (fun o => o.compatibility_score) (direct ++ based)

/-- A nutrition-optimization suggestion (`add_ingredient` or
`substitute_ingredient` dict). -/
inductive Suggestion : Type where
  | addIngredient (ingredient nutrient : PyStr)
      (nutrient_value compatibility_score : ℚ) : Suggestion
  | substituteIngredient (originalIngredient substituteIngredient nutrient : PyStr)
      (reduction compatibility_score : ℚ) : Suggestion
deriving DecidableEq, Repr

/-- Sort key `x['nutrient_value']` (boost lists hold only
`add_ingredient` suggestions). -/
def Suggestion.nutrientValue : Suggestion → ℚ
  | .addIngredient _ _ v _ => v
  | .substituteIngredient _ _ _ r _ => r

/-- Sort key `x['reduction']` (reduction lists hold only
`substitute_ingredient` suggestions). -/
def Suggestion.reductionValue : Suggestion → ℚ
  | .addIngredient _ _ v _ => v
  | .substituteIngredient _ _ _ r _ => r

/-- `SubstitutionEngine._find_nutrient_boost_suggestions`: compatible
(score > 0.7) database ingredients with a positive amount of the nutrient,
sorted descending by nutrient value, top 3. -/
def findNutrientBoostSuggestions (g : Guidelines) (db : NutDB)
    (nutrient : PyStr) (restrictions allergies : List PyStr) :
    List Suggestion :=
  let suggestions := db.filterMap (fun p =>
    let v := (p.2.nutrition.lookup nutrient).getD 0
    if v > 0 then
      let c := calcSubstitutionCompatibility g db p.1 restrictions allergies
      if c > 0.7 then some (Suggestion.addIngredient p.1 nutrient v c)
      else none
    else none)
  (sortByDesc Suggestion.nutrientValue suggestions).take 3

/-- `SubstitutionEngine._find_nutrient_reduction_suggestions`: for each
recipe ingredient carrying the nutrient, take the top-2 substitutions and
keep those that reduce the nutrient; sorted descending by reduction, top 3. -/
def findNutrientReductionSuggestions (g : Guidelines) (db : NutDB)
    (r : Recipe) (nutrient : PyStr) (restrictions allergies : List PyStr) :
    List Suggestion :=
  let suggestions := r.ingredients.flatMap (fun ingredientName =>
    let v := ((((db.lookup ingredientName).getD IngData.empty).nutrition).lookup nutrient).getD 0
    if v > 0 then
      let subs := findSubstitutions g db ingredientName restrictions allergies
      (subs.take 2).filterMap (fun s =>
        let sv := ((((db.lookup s.substitute_name).getD IngData.empty).nutrition).lookup nutrient).getD 0
        if sv < v then
          some (Suggestion.substituteIngredient ingredientName s.substitute_name
            nutrient (v - sv) s.compatibility_score)
        else none)
    else [])
  (sortByDesc Suggestion.reductionValue suggestions).take 3

/-- `SubstitutionEngine._calculate_optimization_score`: banded per-nutrient
scores for positive targets, averaged; 1.0 with no (positive) targets. -/
def calcOptimizationScore (currentNutrition : List (PyStr × ℚ))
    (targetNutrition : List (PyStr × ℚ)) : ℚ :=
  if targetNutrition.isEmpty then 1
  else
    let scores := (pyDedup (targetNutrition.map (fun p => p.1))).filterMap
      (fun nutrient =>
        let targetValue := (targetNutrition.lookup nutrient).getD 0
        let currentValue := (currentNutrition.lookup nutrient).getD 0
        if targetValue > 0 then
          some (if currentValue ≥ targetValue * 0.8 then (1 : ℚ)
            else if currentValue ≥ targetValue * 0.5 then 0.7
            else 0.3)
        else none)
    meanScoreOrOne scores

/-- Per-nutrient analysis record of `optimize_recipe_nutrition`. -/
structure NutrientAnalysis where
  current : ℚ
  target : ℚ
  difference : ℚ
  suggestions_count : Nat
deriving DecidableEq, Repr

/-- Result of `optimize_recipe_nutrition`. -/
structure OptResult where
  optimization_score : ℚ
  suggestions : List Suggestion
  nutrient_analysis : List (PyStr × NutrientAnalysis)
  current_nutrition : List (PyStr × ℚ)
  target_nutrition : List (PyStr × ℚ)
deriving DecidableEq, Repr

/-- The per-nutrient suggestion search of `optimize_recipe_nutrition`: boost
when the target exceeds the current value, reduction otherwise. -/
def optimizationSuggestionsFor (g : Guidelines) (db : NutDB) (r : Recipe)
    (nutrient : PyStr) (difference : ℚ)
    (restrictions allergies : List PyStr) : List Suggestion :=
  if difference > 0 then
    findNutrientBoostSuggestions g db nutrient restrictions allergies
  else
    findNutrientReductionSuggestions g db r nutrient restrictions allergies

/-- `SubstitutionEngine.optimize_recipe_nutrition`.  The loop body only
appends (suggestions, analysis entries) for the nutrients whose
target/current gap exceeds 0.1, so it is written as `flatMap`/`map` over
the triggered nutrients in dict-key order. -/
def optimizeRecipeNutrition (g : Guidelines) (db : NutDB) (r : Recipe)
    (targetNutrients : List (PyStr × ℚ))
    (restrictions allergies : List PyStr) : OptResult :=
  let currentNutrition := r.nutritional_info
  let items := (pyDedup (targetNutrients.map (fun p => p.1))).map
    (fun n => (n, (targetNutrients.lookup n).getD 0))
  let triggered := items.filter (fun p =>
    |p.2 - (currentNutrition.lookup p.1).getD 0| > 0.1)
  let optimizationSuggestions := triggered.flatMap (fun p =>
    optimizationSuggestionsFor g db r p.1
      (p.2 - (currentNutrition.lookup p.1).getD 0) restrictions allergies)
  let nutrientAnalysis := triggered.map (fun p =>
    let currentValue := (currentNutrition.lookup p.1).getD 0
    let suggestions := optimizationSuggestionsFor g db r p.1
      (p.2 - currentValue) restrictions allergies
    (p.1, NutrientAnalysis.mk currentValue p.2 (p.2 - currentValue)
      suggestions.length))
  { optimization_score := calcOptimizationScore currentNutrition targetNutrients
    suggestions := optimizationSuggestions
    nutrient_analysis := nutrientAnalysis
    current_nutrition := currentNutrition
    target_nutrition := targetNutrients }

/-! ## `SimpleVectorStore` (`src/simple_vector_store.py`) -/

/-- An index entry's metadata dict. -/
abbrev Metadata := List (PyStr × MVal)

/-- A filter constraint, as `_apply_filters` dispatches on it: a bare value
(exact equality), `{"$in": [...]}`, `{"$contains": X}` with a string
argument, or `{"$not_contains": [...]}` with a list argument.  The argument
shapes are the ones this pipeline's filter builder and public scenarios
produce; other argument shapes raise `TypeError` on some metadata and are
not modelled. -/
inductive Constraint : Type where
  | cEq : MVal → Constraint
  | cIn : List PyStr → Constraint
  | cContains : PyStr → Constraint
  | cNotContains : List PyStr → Constraint
deriving DecidableEq, Repr

/-- A filter dict: field → constraint, in insertion order. -/
abbrev FilterDict := List (PyStr × Constraint)

/-- Evaluate one constraint against a present metadata value, following the
branches of `_apply_filters`.  `none` models a raised `TypeError`:
`$contains` iterates its string argument over the characters when the field
is a list, substring-tests when the field is a scalar string, and raises on
numbers and `None`; `$not_contains` with a list argument raises on scalar
fields (`list in str` / `list in number` are type errors). -/
def evalConstraint (v : MVal) (c : Constraint) : Option Bool :=
  match c, v with
  | .cEq w, _ => some (v == w)
  | .cIn vs, .list l => some (vs.any (fun fv => l.contains fv))
  | .cIn vs, .str s => some (vs.contains s)
  | .cIn _, .num _ => some false
  | .cIn _, .none => some false
  | .cContains x, .list l => some (x.any (fun ch => l.contains [ch]))
  | .cContains x, .str s => some (pyInStr x s)
  | .cContains _, .num _ => none
  | .cContains _, .none => none
  | .cNotContains vs, .list l => some (!(vs.any (fun fv => l.contains fv)))
  | .cNotContains _, .str _ => none
  | .cNotContains _, .num _ => none
  | .cNotContains _, .none => none

/-- The inner loop of `_apply_filters` for one metadata dict: a missing
key fails the entry immediately (before any constraint is evaluated);
otherwise constraints are checked in filter order, stopping at the first
failure.  `Except.error` models a raised `TypeError`. -/
def entryMatches (metadata : Metadata) : FilterDict → Except PyError Bool
  | [] => .ok true
  | (key, c) :: rest =>
    match metadata.lookup key with
    | none => .ok false
    | some v =>
      match evalConstraint v c with
      | none => .error .typeError
      | some true => entryMatches metadata rest
      | some false => .ok false

/-- `_apply_filters`: indices of the metadata entries matching every
constraint, in index order. -/
def applyFiltersAux (f : FilterDict) (i : Nat) :
    List Metadata → Except PyError (List Nat)
  | [] => .ok []
  | m :: ms =>
    match entryMatches m f with
    | .error e => .error e
    | .ok b =>
      match applyFiltersAux f (i + 1) ms with
      | .error e => .error e
      | .ok rest => .ok (if b then i :: rest else rest)

/-- `SimpleVectorStore._apply_filters`. -/
def applyFilters (metadatas : List Metadata) (f : FilterDict) :
    Except PyError (List Nat) :=
  applyFiltersAux f 0 metadatas

/-- The vector store's parallel lists.  Embeddings are not stored here:
`search_recipes` only reads them through `_cosine_similarity` against the
query embedding, which the pipeline model abstracts as the `sims` input
(one similarity per stored embedding) since cosine similarity of
floating-point vectors has no exact rational form. -/
structure Store where
  ids : List PyStr
  documents : List PyStr
  metadatas : List Metadata
deriving DecidableEq, Repr

/-- Output dict of `SimpleVectorStore.search_recipes`. -/
structure StoreOut where
  ids : List PyStr
  documents : List PyStr
  metadatas : List Metadata
  distances : List ℚ
deriving DecidableEq, Repr

/-- `SimpleVectorStore.search_recipes`: enumerate similarities, sort
descending (stable), apply the filter (`if filter_dict:` is falsy for
`None` and for an empty dict), take the top `n_results`, return parallel
lists with `distance = 1 - similarity`.  The store's parallel lists are
indexed at the surviving positions (in the pipeline they all have the
length of `sims`). -/
def storeSearchRecipes (store : Store) (sims : List ℚ) (nResults : Nat)
    (filterDict : Option FilterDict) : Except PyError StoreOut :=
  let similarities := (List.range sims.length).zip sims
  let sorted := sortByDesc (fun p => p.2) similarities
  let filteredE : Except PyError (List (Nat × ℚ)) :=
    match filterDict with
    | none => .ok sorted
    | some f =>
      if f.isEmpty then .ok sorted
      else
        match applyFilters store.metadatas f with
        | .error e => .error e
        | .ok idxs => .ok (sorted.filter (fun p => idxs.contains p.1))
  match filteredE with
  | .error e => .error e
  | .ok filtered =>
    let top := filtered.take nResults
    .ok
      { ids := top.map (fun p => store.ids.getD p.1 [])
        documents := top.map (fun p => store.documents.getD p.1 [])
        metadatas := top.map (fun p => store.metadatas.getD p.1 [])
        distances := top.map (fun p => 1 - p.2) }

/-! ## `DataProcessor` (`src/data_processor.py`) -/

/-- Translate an optional string field to the metadata value
`recipe.get(field)` produces. -/
def optMVal : Option PyStr → MVal
  | Option.none => MVal.none
  | Option.some s => MVal.str s

/-- `DataProcessor.get_recipe_metadata`, for one recipe: the metadata dict
has exactly the keys `id`, `title`, `cuisine_type`, `dietary_tags`,
`health_benefits`, `calories`, `protein`, `carbohydrates`, `fat`, `fiber` —
in particular no `ingredients` key. -/
def getRecipeMetadata (r : Recipe) : Metadata :=
  [(pys "id", r.id),
   (pys "title", MVal.str r.title),
   (pys "cuisine_type", optMVal r.cuisine_type),
   (pys "dietary_tags", MVal.list r.dietary_tags),
   (pys "health_benefits", MVal.list r.health_benefits),
   (pys "calories", MVal.num ((r.nutritional_info.lookup (pys "calories")).getD 0)),
   (pys "protein", MVal.num ((r.nutritional_info.lookup (pys "protein")).getD 0)),
   (pys "carbohydrates", MVal.num ((r.nutritional_info.lookup (pys "carbohydrates")).getD 0)),
   (pys "fat", MVal.num ((r.nutritional_info.lookup (pys "fat")).getD 0)),
   (pys "fiber", MVal.num ((r.nutritional_info.lookup (pys "fiber")).getD 0))]

/-! ## `RAGPipeline` (`src/rag_pipeline.py`) -/

/-- `RAGPipeline._find_recipe_by_text`: parse `"Title: X | ..."` and resolve
`X` against the loaded recipes by exact title match. -/
def findRecipeByText (recipes : List Recipe) (text : PyStr) : Option Recipe :=
  if !(pyInStr (pys " | ") text) then Option.none
  else
    let titlePart := pyTakeUntilSep (pys " | ") text
    if (pys "Title: ").isPrefixOf titlePart then
      let title := titlePart.drop 7
      recipes.find? (fun r => r.title == title)
    else Option.none

/-- The union of the guideline `incompatible_ingredients` lists of the given
allergies, as collected by `_build_filter_dict` through
`data_processor.get_allergy_info` (an unknown allergy, or one whose info
lacks the list, contributes nothing). -/
def allergyIncompatibleIngredients (g : Guidelines) (allergies : List PyStr) :
    List PyStr :=
  allergies.flatMap (fun a => (g.allergies.lookup a).getD [])

/-- The fixed condition → benefit-tags table of `_build_filter_dict`. -/
def healthBenefitsMapping (condition : PyStr) : List PyStr :=
  if condition = pys "diabetes" then
    [pys "diabetes_friendly", pys "blood_sugar_control"]
  else if condition = pys "heart_disease" then
    [pys "heart_healthy", pys "cholesterol_lowering"]
  else if condition = pys "hypertension" then
    [pys "blood_pressure_control", pys "heart_healthy"]
  else if condition = pys "celiac_disease" then
    [pys "celiac_safe", pys "gluten_free"]
  else if condition = pys "lactose_intolerance" then
    [pys "lactose_intolerance_safe", pys "dairy_free"]
  else if condition = pys "obesity" then
    [pys "weight_management", pys "low_carb"]
  else []

/-- `RAGPipeline._build_filter_dict`: dietary tags (`$in`), allergy-derived
ingredient exclusions (`$not_contains`), health-condition benefits (`$in`),
in that insertion order; `None` when no constraint applies. -/
def buildFilterDict (g : Guidelines)
    (dietaryRestrictions allergies healthConditions : List PyStr) :
    Option FilterDict :=
  let f1 : FilterDict :=
    if !dietaryRestrictions.isEmpty then
      [(pys "dietary_tags", Constraint.cIn dietaryRestrictions)]
    else []
  let incompatibleIngredients := allergyIncompatibleIngredients g allergies
  let f2 : FilterDict :=
    if !allergies.isEmpty && !incompatibleIngredients.isEmpty then
      [(pys "ingredients", Constraint.cNotContains incompatibleIngredients)]
    else []
  let relevantBenefits := healthConditions.flatMap healthBenefitsMapping
  let f3 : FilterDict :=
    if !healthConditions.isEmpty && !relevantBenefits.isEmpty then
      [(pys "health_benefits", Constraint.cIn relevantBenefits)]
    else []
  let f := f1 ++ f2 ++ f3
  if f.isEmpty then Option.none else Option.some f

/-- One entry of a `search_recipes` result list. -/
structure SearchEntry where
  recipe : Recipe
  compatibility : CompatResult
  search_score : ℚ
  overall_score : ℚ
  distance : ℚ
  metadata : Metadata
deriving DecidableEq, Repr

/-- `RAGPipeline._calculate_overall_score`. -/
def calculateOverallScore (searchScore compatibilityScore : ℚ) : ℚ :=
  searchScore * 0.6 + compatibilityScore * 0.4

/-- The static-hit loop of `search_recipes`: resolve each hit's document
back to a recipe (dropping unresolvable hits), then score.  `maxDistance`
is `max(search_results['distances'])`, constant across the loop.  The
division `distance / maxDistance` raises `ZeroDivisionError` when
`maxDistance` is 0 — the error fires at the first resolvable hit, exactly
as in the source. -/
def analyzeStaticHits (g : Guidelines) (recipes : List Recipe)
    (restrictions allergies healthConditions : List PyStr) (maxDistance : ℚ) :
    List (PyStr × PyStr × Metadata × ℚ) → Except PyError (List SearchEntry)
  | [] => .ok []
  | (_, document, metadata, distance) :: rest =>
    match findRecipeByText recipes document with
    | Option.none =>
      analyzeStaticHits g recipes restrictions allergies healthConditions
        maxDistance rest
    | Option.some r =>
      if maxDistance = 0 then .error .zeroDivisionError
      else
        let compatibility :=
          analyzeRecipeCompatibility g r restrictions allergies healthConditions
        let searchScore := 1 - distance / maxDistance
        let overallScore :=
          calculateOverallScore searchScore compatibility.overall_score
        match analyzeStaticHits g recipes restrictions allergies
          healthConditions maxDistance rest with
        | .error e => .error e
        | .ok es =>
          .ok (SearchEntry.mk r compatibility searchScore overallScore distance
            metadata :: es)

/-- The metadata dict `search_recipes` builds for a dynamic recipe. -/
def dynamicMetadata (r : Recipe) : Metadata :=
  [(pys "title", MVal.str r.title),
   (pys "cuisine_type", MVal.str (r.cuisine_type.getD (pys "Dynamic"))),
   (pys "dietary_tags", MVal.list r.dietary_tags),
   (pys "health_benefits", MVal.list r.health_benefits),
   (pys "calories", MVal.num ((r.nutritional_info.lookup (pys "calories")).getD 0)),
   (pys "protein", MVal.num ((r.nutritional_info.lookup (pys "protein")).getD 0)),
   (pys "carbohydrates", MVal.num ((r.nutritional_info.lookup (pys "carbohydrates")).getD 0)),
   (pys "fat", MVal.num ((r.nutritional_info.lookup (pys "fat")).getD 0)),
   (pys "fiber", MVal.num ((r.nutritional_info.lookup (pys "fiber")).getD 0))]

/-- The dynamic-candidate loop body of `search_recipes`: fixed
`search_score = 0.8`, `overall_score = compatibility * 0.8`, fixed
`distance = 0.2`. -/
def dynamicEntry (g : Guidelines)
    (restrictions allergies healthConditions : List PyStr) (r : Recipe) :
    SearchEntry :=
  let compatibility :=
    analyzeRecipeCompatibility g r restrictions allergies healthConditions
  SearchEntry.mk r compatibility 0.8 (compatibility.overall_score * 0.8) 0.2
    (dynamicMetadata r)

/-- `zip` of the four parallel hit lists, as Python's `zip` truncates to the
shortest. -/
def zip4 {α β γ δ : Type} : List α → List β → List γ → List δ →
    List (α × β × γ × δ)
  | a :: as_, b :: bs, c :: cs, d :: ds => (a, b, c, d) :: zip4 as_ bs cs ds
  | _, _, _, _ => []

/-- `seen_titles` deduplication loop of `search_recipes`: keep the first
entry bearing each title. -/
def dedupByTitleAux (seen : List PyStr) : List SearchEntry → List SearchEntry
  | [] => []
  | e :: es =>
    if seen.contains e.recipe.title then dedupByTitleAux seen es
    else e :: dedupByTitleAux (e.recipe.title :: seen) es

/-- The merged candidate list of `search_recipes` before sorting: analyzed
static hits followed by the dynamic entries.  `generated` stands for the
`recipe_integrator.generate_recipes` output (randomized in the source, so
supplied as an input here); `_get_dynamic_recipes` truncates it to
`n_results`. -/
def mergedCandidates (g : Guidelines) (recipes : List Recipe) (store : Store)
    (sims : List ℚ) (restrictions allergies healthConditions : List PyStr)
    (nResults : Nat) (includeDynamic : Bool) (generated : List Recipe) :
    Except PyError (List SearchEntry) :=
  let filterDict := buildFilterDict g restrictions allergies healthConditions
  match storeSearchRecipes store sims (nResults * 2) filterDict with
  | .error e => .error e
  | .ok searchResults =>
    let hits := zip4 searchResults.ids searchResults.documents
      searchResults.metadatas searchResults.distances
    let maxDistance := (searchResults.distances.max?).getD 0
    match analyzeStaticHits g recipes restrictions allergies
      healthConditions maxDistance hits with
    | .error e => .error e
    | .ok staticEntries =>
      let dynamicEntries :=
        if includeDynamic then
          (generated.take nResults).map
            (dynamicEntry g restrictions allergies healthConditions)
        else []
      .ok (staticEntries ++ dynamicEntries)

/-- Return dict of `RAGPipeline.search_recipes`. -/
structure SearchOut where
  results : List SearchEntry
  total_found : Nat
  query : PyStr
  fa_dietary_restrictions : List PyStr
  fa_allergies : List PyStr
  fa_health_conditions : List PyStr
  dynamic_recipes_included : Bool
deriving DecidableEq, Repr

/-- `RAGPipeline.search_recipes`: build the filter, query the store for
`2 × n_results` hits, resolve and score static hits, append scored dynamic
candidates, sort descending by `overall_score` (stable), deduplicate by
title (first occurrence wins), truncate to `n_results`. -/
def searchRecipes (g : Guidelines) (recipes : List Recipe) (store : Store)
    (sims : List ℚ) (query : PyStr)
    (restrictions allergies healthConditions : List PyStr)
    (nResults : Nat) (includeDynamic : Bool) (generated : List Recipe) :
    Except PyError SearchOut :=
  match mergedCandidates g recipes store sims restrictions allergies
    healthConditions nResults includeDynamic generated with
  | .error e => .error e
  | .ok analyzedResults =>
    let sorted := sortByDesc (fun e => e.overall_score) analyzedResults
    let uniqueResults := dedupByTitleAux [] sorted
    .ok
      { results := uniqueResults.take nResults
        total_found := uniqueResults.length
        query := query
        fa_dietary_restrictions := restrictions
        fa_allergies := allergies
        fa_health_conditions := healthConditions
        dynamic_recipes_included := includeDynamic }

/-! ## Specification-side definition (for the optimization-score refinement)

Written from the spec's words, to be compared with
`calcOptimizationScore`. -/

/-- Spec wording: per tracked nutrient with a positive target, the banded
score is 1.0 if current ≥ 0.8×target, 0.7 if current ≥ 0.5×target, 0.3
otherwise; the overall optimization score is the mean of these bands, and
1.0 if there are no positive targets. -/
def specBandedOptimizationScore (currentNutrition targetNutrition :
    List (PyStr × ℚ)) : ℚ :=
  let bands := (pyDedup (targetNutrition.map (fun p => p.1))).filterMap
    (fun nutrient =>
      let t := (targetNutrition.lookup nutrient).getD 0
      if t > 0 then
        let c := (currentNutrition.lookup nutrient).getD 0
        some (if c ≥ 0.8 * t then (1 : ℚ) else if c ≥ 0.5 * t then 0.7 else 0.3)
      else none)
  meanScoreOrOne bands

/-! ## Concrete data for counterexamples and witnesses -/

/-- Guidelines with the single allergy table entry `soy → ["soy"]`. -/
def allergyGuidelines : Guidelines := ⟨[], [(pys "soy", [pys "soy"])], [], []⟩

/-- The spec scenario recipe: ingredients tofu / soy sauce / rice, tagged
vegetarian and vegan. -/
def tofuRiceRecipe : Recipe :=
  ⟨MVal.none, pys "Tofu Rice Bowl", Option.none,
   [pys "vegetarian", pys "vegan"], [], [pys "tofu", pys "soy sauce", pys "rice"], []⟩

/-- Guidelines for the substitution-ranking counterexample: restriction `r1`
excludes `y`, restriction `r2` excludes nothing; `milk` has direct
substitutes `x` and `y`. -/
def subGuidelines : Guidelines :=
  ⟨[(pys "r1", [pys "y"]), (pys "r2", [])], [], [],
   [(pys "milk", [⟨pys "x", pys "1:1", pys ""⟩, ⟨pys "y", pys "1:1", pys ""⟩])]⟩

/-- Nutrient database for the substitution-ranking counterexample: `milk`
and `y` share identical calories; `x` is unknown. -/
def subDB : NutDB :=
  [(pys "milk", ⟨[], [(pys "calories", 100)], []⟩),
   (pys "y", ⟨[pys "r2"], [(pys "calories", 100)], []⟩)]

/-- Empty guidelines tables. -/
def emptyGuidelines : Guidelines := ⟨[], [], [], []⟩

/-- Database with one protein-bearing, fully compatible ingredient. -/
def proteinDB : NutDB := [(pys "chicken", ⟨[], [], [(pys "protein", 30)]⟩)]

/-- Recipe with 45 units of protein. -/
def proteinRecipe : Recipe :=
  ⟨MVal.none, pys "Protein Bowl", Option.none, [], [], [],
   [(pys "protein", 45)]⟩

/-- A synthetic (dynamically generated) recipe with no conflicts. -/
def dynRecipe : Recipe :=
  ⟨MVal.str (pys "dynamic_recipe_1"), pys "Dinner Pasta Italian Style",
   Option.some (pys "italian"), [], [], [], []⟩

/-- The empty vector store. -/
def emptyStore : Store := ⟨[], [], []⟩

/-- A recipe titled `A`, resolvable from the hit text `Title: A | x`. -/
def recipeA : Recipe := ⟨MVal.none, pys "A", Option.none, [], [], [], []⟩

/-- A store holding one document that resolves to `recipeA`. -/
def storeA : Store := ⟨[pys "id1"], [pys "Title: A | x"], [[]]⟩

/-- Guidelines with the allergy table entry `dairy → ["milk"]`. -/
def dairyGuidelines : Guidelines := ⟨[], [(pys "dairy", [pys "milk"])], [], []⟩

/-- A statically indexed recipe. -/
def staticRecipeB : Recipe :=
  ⟨MVal.none, pys "B", Option.none, [pys "vegan"], [], [pys "milk"], []⟩

/-- A store indexing `staticRecipeB` with the metadata
`get_recipe_metadata` builds. -/
def storeB : Store :=
  ⟨[pys "idB"], [pys "Title: B | x"], [staticRecipeB].map getRecipeMetadata⟩

/-- A synthetic recipe for the allergy-filter run. -/
def dynRecipeC : Recipe := ⟨MVal.none, pys "C", Option.none, [], [], [], []⟩

/-- Fallback value used to name the output of a concrete successful run. -/
def emptySearchOut : SearchOut := ⟨[], 0, [], [], [], [], false⟩

/-- The concrete dynamic-only run shared by several witnesses: empty corpus
and index, one synthetic candidate. -/
def dynRunOut : SearchOut :=
  (searchRecipes emptyGuidelines [] emptyStore [] (pys "pasta") [] [] [] 5
    true [dynRecipe]).toOption.getD emptySearchOut

/-- The merged candidate list of the dynamic-only run. -/
def dynRunCands : List SearchEntry :=
  (mergedCandidates emptyGuidelines [] emptyStore [] [] [] [] 5 true
    [dynRecipe]).toOption.getD []

/-- Fallback value used to name the output of a concrete store query. -/
def emptyStoreOut : StoreOut := ⟨[], [], [], []⟩

/-- The store output of the dynamic-only run (empty index, no filter). -/
def dynRunStoreOut : StoreOut :=
  (storeSearchRecipes emptyStore [] (5 * 2)
    (buildFilterDict emptyGuidelines [] [] [])).toOption.getD ⟨[], [], [], []⟩

/-- The store output of the zero-distance run over `storeA`. -/
def storeARunOut : StoreOut :=
  (storeSearchRecipes storeA [1] (5 * 2)
    (buildFilterDict emptyGuidelines [] [] [])).toOption.getD emptyStoreOut

/-- The output of the allergy-filtered run over `storeB`. -/
def allergyRunOut : SearchOut :=
  (searchRecipes dairyGuidelines [staticRecipeB] storeB [1] (pys "q") []
    [pys "dairy"] [] 5 true [dynRecipeC]).toOption.getD emptySearchOut

/-! ## Helper lemmas -/

theorem isPrefixOf_iff_exists {α : Type} [DecidableEq α] :
    ∀ (p s : List α), p.isPrefixOf s = true ↔ ∃ t, p ++ t = s
  | [], s => by simp [List.isPrefixOf]
  | a :: as_, [] => by simp [List.isPrefixOf]
  | a :: as_, b :: bs => by
    simp only [List.isPrefixOf, Bool.and_eq_true, beq_iff_eq,
      isPrefixOf_iff_exists as_ bs]
    constructor
    · rintro ⟨rfl, t, rfl⟩
      exact ⟨t, rfl⟩
    · rintro ⟨t, ht⟩
      cases ht
      exact ⟨rfl, t, rfl⟩

theorem pyInStr_iff (needle : PyStr) :
    ∀ s : PyStr, pyInStr needle s = true ↔
      ∃ pre post, s = pre ++ needle ++ post
  | [] => by
    simp only [pyInStr, List.isEmpty_iff]
    constructor
    · rintro rfl
      exact ⟨[], [], rfl⟩
    · rintro ⟨pre, post, h⟩
      have := congrArg List.length h
      simp only [List.length_nil, List.length_append] at this
      exact List.length_eq_zero.mp (by omega)
  | c :: rest => by
    simp only [pyInStr, Bool.or_eq_true, isPrefixOf_iff_exists,
      pyInStr_iff needle rest]
    constructor
    · rintro (⟨t, ht⟩ | ⟨pre, post, rfl⟩)
      · exact ⟨[], t, by simpa using ht.symm⟩
      · exact ⟨c :: pre, post, rfl⟩
    · rintro ⟨pre, post, h⟩
      cases pre with
      | nil => exact Or.inl ⟨post, by simpa using h.symm⟩
      | cons p ps =>
        right
        cases h
        exact ⟨ps, post, rfl⟩

theorem mem_insertByDesc {α : Type} (key : α → ℚ) (x a : α) :
    ∀ l : List α, a ∈ insertByDesc key x l ↔ a = x ∨ a ∈ l
  | [] => by simp [insertByDesc]
  | y :: ys => by
    simp only [insertByDesc]
    split
    · simp
    · simp only [List.mem_cons, mem_insertByDesc key x a ys]
      tauto

theorem mem_sortByDesc {α : Type} (key : α → ℚ) (a : α) :
    ∀ l : List α, a ∈ sortByDesc key l ↔ a ∈ l
  | [] => by simp [sortByDesc]
  | x :: xs => by
    simp only [sortByDesc, mem_insertByDesc, mem_sortByDesc key a xs,
      List.mem_cons]

theorem pairwise_insertByDesc {α : Type} (key : α → ℚ) (x : α) :
    ∀ l : List α, l.Pairwise (fun a b => key b ≤ key a) →
      (insertByDesc key x l).Pairwise (fun a b => key b ≤ key a)
  | [], _ => by simp [insertByDesc]
  | y :: ys, h => by
    rcases List.pairwise_cons.mp h with ⟨hy, hys⟩
    simp only [insertByDesc]
    split
    · rename_i hxy
      refine List.pairwise_cons.mpr ⟨?_, h⟩
      intro b hb
      rcases List.mem_cons.mp hb with rfl | hb
      · exact hxy
      · exact le_trans (hy b hb) hxy
    · rename_i hxy
      refine List.pairwise_cons.mpr ⟨?_, pairwise_insertByDesc key x ys hys⟩
      intro b hb
      rcases (mem_insertByDesc key x b ys).mp hb with rfl | hb
      · exact le_of_not_le hxy
      · exact hy b hb

theorem pairwise_sortByDesc {α : Type} (key : α → ℚ) :
    ∀ l : List α, (sortByDesc key l).Pairwise (fun a b => key b ≤ key a)
  | [] => by simp [sortByDesc]
  | x :: xs => pairwise_insertByDesc key x _ (pairwise_sortByDesc key xs)

theorem mem_pyDedupAux (a : PyStr) :
    ∀ (seen l : List PyStr), a ∈ pyDedupAux seen l → a ∈ l
  | seen, [] => by simp [pyDedupAux]
  | seen, k :: ks => by
    simp only [pyDedupAux]
    split
    · exact fun h => List.mem_cons_of_mem _ (mem_pyDedupAux a seen ks h)
    · intro h
      rcases List.mem_cons.mp h with rfl | h
      · exact List.mem_cons_self _ _
      · exact List.mem_cons_of_mem _ (mem_pyDedupAux a _ ks h)

theorem pyDedup_sub {a : PyStr} {l : List PyStr} (h : a ∈ pyDedup l) :
    a ∈ l := mem_pyDedupAux a [] l h

theorem pyDedup_ne_nil {l : List PyStr} (h : l ≠ []) : pyDedup l ≠ [] := by
  cases l with
  | nil => exact absurd rfl h
  | cons k ks => simp [pyDedup, pyDedupAux]

theorem mem_dedupByTitleAux {e : SearchEntry} :
    ∀ (seen : List PyStr) (l : List SearchEntry),
      e ∈ dedupByTitleAux seen l →
      e ∈ l ∧ seen.contains e.recipe.title = false
  | seen, [] => by simp [dedupByTitleAux]
  | seen, x :: xs => by
    simp only [dedupByTitleAux]
    split
    · intro h
      have := mem_dedupByTitleAux seen xs h
      exact ⟨List.mem_cons_of_mem _ this.1, this.2⟩
    · rename_i hx
      intro h
      rcases List.mem_cons.mp h with rfl | h
      · exact ⟨List.mem_cons_self _ _, Bool.not_eq_true _ ▸ (by simpa using hx)⟩
      · have := mem_dedupByTitleAux (x.recipe.title :: seen) xs h
        refine ⟨List.mem_cons_of_mem _ this.1, ?_⟩
        have h2 := this.2
        simp only [List.contains_cons, Bool.or_eq_false_iff] at h2
        exact h2.2

theorem pairwise_ne_dedupByTitleAux :
    ∀ (seen : List PyStr) (l : List SearchEntry),
      (dedupByTitleAux seen l).Pairwise
        (fun a b => a.recipe.title ≠ b.recipe.title)
  | seen, [] => by simp [dedupByTitleAux]
  | seen, x :: xs => by
    simp only [dedupByTitleAux]
    split
    · exact pairwise_ne_dedupByTitleAux seen xs
    · refine List.pairwise_cons.mpr
        ⟨?_, pairwise_ne_dedupByTitleAux (x.recipe.title :: seen) xs⟩
      intro b hb
      have := (mem_dedupByTitleAux _ _ hb).2
      simp only [List.contains_cons, Bool.or_eq_false_iff] at this
      have hbx : (b.recipe.title == x.recipe.title) = false := this.1
      intro hxb
      rw [hxb] at hbx
      simp at hbx

theorem dedupByTitleAux_max :
    ∀ (seen : List PyStr) (l : List SearchEntry),
      l.Pairwise (fun a b => b.overall_score ≤ a.overall_score) →
      ∀ e ∈ dedupByTitleAux seen l, ∀ c ∈ l,
        c.recipe.title = e.recipe.title → c.overall_score ≤ e.overall_score
  | seen, [], _ => by simp [dedupByTitleAux]
  | seen, x :: xs, h => by
    rcases List.pairwise_cons.mp h with ⟨hx, hxs⟩
    simp only [dedupByTitleAux]
    split
    · rename_i hseen
      intro e he c hc htitle
      have hmem := mem_dedupByTitleAux seen xs he
      rcases List.mem_cons.mp hc with rfl | hc
      · -- c = x, but x's title is in seen while e's is not
        exfalso
        have : seen.contains e.recipe.title = true := htitle ▸ hseen
        rw [hmem.2] at this
        exact Bool.false_ne_true this
      · exact dedupByTitleAux_max seen xs hxs e he c hc htitle
    · rename_i hseen
      intro e he c hc htitle
      rcases List.mem_cons.mp he with rfl | he
      · rcases List.mem_cons.mp hc with rfl | hc
        · exact le_refl _
        · exact hx c hc
      · have hmem := mem_dedupByTitleAux (x.recipe.title :: seen) xs he
        rcases List.mem_cons.mp hc with rfl | hc
        · exfalso
          have h2 := hmem.2
          simp only [List.contains_cons, Bool.or_eq_false_iff] at h2
          have : (e.recipe.title == c.recipe.title) = false := h2.1
          rw [← htitle] at this
          simp at this
        · exact dedupByTitleAux_max (x.recipe.title :: seen) xs hxs e he c hc
            htitle

theorem meanScoreOrOne_zero {l : List ℚ} (hne : l ≠ [])
    (hz : ∀ x ∈ l, x = 0) : meanScoreOrOne l = 0 := by
  unfold meanScoreOrOne
  rw [if_neg (by simpa using hne), List.sum_eq_zero hz, zero_div]

theorem checkAllergies_score_zero (g : Guidelines) (r : Recipe)
    {allergies : List PyStr} (hne : allergies ≠ [])
    (hall : ∀ a ∈ allergies,
      conflictingFor ((g.allergies.lookup a).getD [])
        (r.ingredients.map pyLower) ≠ []) :
    (checkAllergies g r allergies).compatibility_score = 0 := by
  have hne' : allergies.isEmpty = false := by
    cases allergies with
    | nil => exact absurd rfl hne
    | cons a as_ => rfl
  unfold checkAllergies
  simp only [hne', Bool.false_eq_true, if_false]
  apply meanScoreOrOne_zero
  · have : pyDedup allergies ≠ [] := pyDedup_ne_nil hne
    simp [this]
  · intro x hx
    simp only [List.map_map, List.mem_map] at hx
    obtain ⟨a, ha, rfl⟩ := hx
    have hmem : a ∈ allergies := pyDedup_sub ha
    have hconf := hall a hmem
    simp only [Function.comp, allergyResultFor]
    rw [if_neg (by simpa using hconf)]

/-- C1 (corrected): if the user's allergy list is non-empty and **every**
listed allergy fuzzy-matches some recipe ingredient (its
`conflicting_ingredients` list is non-empty), then
`analyze_recipe_compatibility` returns `overall_score = 0.0` and
`overall_compatible = False`, regardless of the restriction and health
dimensions.  (The original claim — a veto from *any single* matching
allergy even in the presence of further non-matching allergies — is false:
the allergy dimension is the *mean* of the per-allergy scores, and the veto
fires only when that mean is exactly 0; see the counterexample.) -/
theorem allergy_total_conflict_veto (g : Guidelines) (r : Recipe)
    (restrictions healthConditions : List PyStr) {allergies : List PyStr}
    (hne : allergies ≠ [])
    (hall : ∀ a ∈ allergies,
      conflictingFor ((g.allergies.lookup a).getD [])
        (r.ingredients.map pyLower) ≠ []) :
    (analyzeRecipeCompatibility g r restrictions allergies
      healthConditions).overall_score = 0 ∧
    (analyzeRecipeCompatibility g r restrictions allergies
      healthConditions).overall_compatible = false := by
  have hA := checkAllergies_score_zero g r hne hall
  have hscore : (analyzeRecipeCompatibility g r restrictions allergies
      healthConditions).overall_score = 0 := by
    simp [analyzeRecipeCompatibility, calculateCompatibilityScore, hA]
  refine ⟨hscore, ?_⟩
  have : (analyzeRecipeCompatibility g r restrictions allergies
      healthConditions).overall_compatible =
      decide ((analyzeRecipeCompatibility g r restrictions allergies
        healthConditions).overall_score ≥ 0.7) := by
    simp only [analyzeRecipeCompatibility]
  rw [this, hscore]
  norm_num

/-- C1 counterexample: the recipe `["tofu","soy sauce","rice"]` with the
profile allergies `["soy","nuts"]` — "soy" fuzzy-matches "soy sauce"
(so the claim's hypothesis holds), yet the allergy dimension is the mean
(0 + 1)/2 = 0.5, no veto fires, and the result is `overall_score = 0.8`,
`overall_compatible = True`, contradicting the claimed
`overall_score = 0.0` / `overall_compatible = False`. -/
theorem allergy_single_conflict_no_veto_cex :
    (conflictingFor ((allergyGuidelines.allergies.lookup (pys "soy")).getD [])
      (tofuRiceRecipe.ingredients.map pyLower) ≠ []) ∧
    (analyzeRecipeCompatibility allergyGuidelines tofuRiceRecipe []
      [pys "soy", pys "nuts"] []).overall_score = 4/5 ∧
    (analyzeRecipeCompatibility allergyGuidelines tofuRiceRecipe []
      [pys "soy", pys "nuts"] []).overall_compatible = true := by
  with_unfolding_all decide

/-- Witness for `allergy_total_conflict_veto`, at the spec's own scenario:
single allergy `["soy"]` against the tofu/soy-sauce/rice recipe. -/
theorem allergy_total_conflict_veto_witness :
    ([pys "soy"] ≠ ([] : List PyStr)) ∧
    (∀ a ∈ [pys "soy"],
      conflictingFor ((allergyGuidelines.allergies.lookup a).getD [])
        (tofuRiceRecipe.ingredients.map pyLower) ≠ []) ∧
    ((analyzeRecipeCompatibility allergyGuidelines tofuRiceRecipe []
        [pys "soy"] []).overall_score = 0 ∧
      (analyzeRecipeCompatibility allergyGuidelines tofuRiceRecipe []
        [pys "soy"] []).overall_compatible = false) :=
  ⟨by simp, by with_unfolding_all decide,
    allergy_total_conflict_veto allergyGuidelines tofuRiceRecipe [] []
      (by simp) (by with_unfolding_all decide)⟩

/-- C2 (confirmed): the Compatibility Analyzer's overall score is
`restriction×0.4 + allergy×0.4 + health×0.2`, forced to exactly 0.0
whenever the restriction or allergy dimension score is exactly 0.0, and
`overall_compatible` is true iff the overall score is ≥ 0.7. -/
theorem compatibility_fusion_and_threshold (g : Guidelines) (r : Recipe)
    (restrictions allergies healthConditions : List PyStr) :
    ((analyzeRecipeCompatibility g r restrictions allergies
        healthConditions).overall_score =
      if (checkDietaryRestrictions g r restrictions).compatibility_score = 0 ∨
          (checkAllergies g r allergies).compatibility_score = 0 then 0
      else
        (checkDietaryRestrictions g r restrictions).compatibility_score * 0.4 +
        (checkAllergies g r allergies).compatibility_score * 0.4 +
        (checkHealthConditions g r healthConditions).compatibility_score * 0.2) ∧
    ((analyzeRecipeCompatibility g r restrictions allergies
        healthConditions).overall_compatible = true ↔
      (analyzeRecipeCompatibility g r restrictions allergies
        healthConditions).overall_score ≥ 0.7) := by
  constructor
  · simp only [analyzeRecipeCompatibility, calculateCompatibilityScore]
    by_cases ha : (checkAllergies g r allergies).compatibility_score = 0 <;>
      by_cases hr :
        (checkDietaryRestrictions g r restrictions).compatibility_score = 0 <;>
      simp [ha, hr]
  · simp only [analyzeRecipeCompatibility, decide_eq_true_eq]

/-- C4 (corrected): the list returned by `find_substitutions` is sorted
non-increasing by `compatibility_score` — the code's sort key is
`x['compatibility_score']`, **not** the fused
`compatibility×0.7 + nutritional_similarity×0.3` the claim names (see the
counterexample, where the fused scores come out increasing). -/
theorem findSubstitutions_sorted_by_compatibility (g : Guidelines)
    (db : NutDB) (ingredient : PyStr) (restrictions allergies : List PyStr) :
    (findSubstitutions g db ingredient restrictions allergies).Pairwise
      (fun a b => b.compatibility_score ≤ a.compatibility_score) := by
  unfold findSubstitutions
  exact pairwise_sortByDesc _ _

/-- C4 counterexample: for `milk` with restrictions `[r1, r2]` over
`subGuidelines`/`subDB`, `find_substitutions` returns fused overall scores
`[0.7, 0.79, 0.79]` — not non-increasing, because the sort used
`compatibility_score` `[1.0, 0.7, 0.7]` instead. -/
theorem findSubstitutions_not_sorted_by_overall_cex :
    ((findSubstitutions subGuidelines subDB (pys "milk")
        [pys "r1", pys "r2"] []).map (fun o => o.overall_score) =
      [7/10, 79/100, 79/100]) ∧
    ¬ (findSubstitutions subGuidelines subDB (pys "milk")
        [pys "r1", pys "r2"] []).Pairwise
      (fun a b => b.overall_score ≤ a.overall_score) := by
  with_unfolding_all decide

/-- C9 (corrected): a `{field: {"$contains": X}}` constraint with string `X`
matches a scalar string field iff `X` is a substring of it (as the claim
says), but matches a collection field iff **some single character of `X`**
is an element of the collection — Python iterates the string argument
character by character — not iff `X` itself is an element (see the
counterexample). -/
theorem contains_constraint_semantics (x s : PyStr) (l : List PyStr) :
    (evalConstraint (MVal.list l) (Constraint.cContains x) = some true ↔
      ∃ ch ∈ x, [ch] ∈ l) ∧
    (evalConstraint (MVal.str s) (Constraint.cContains x) = some true ↔
      ∃ pre post, s = pre ++ x ++ post) := by
  constructor
  · simp only [evalConstraint, Option.some.injEq, List.any_eq_true]
    constructor
    · rintro ⟨ch, hch, hmem⟩
      exact ⟨ch, hch, List.elem_iff.mp hmem⟩
    · rintro ⟨ch, hch, hmem⟩
      exact ⟨ch, hch, List.elem_iff.mpr hmem⟩
  · simp only [evalConstraint, Option.some.injEq]
    exact pyInStr_iff x s

/-- C9 counterexample: `{"$contains": "soy"}` against a collection field
`["soy"]` — "soy" *is* an element of the collection, yet the constraint
does not match, because the code iterates the characters "s","o","y" and
tests each one-character string for membership. -/
theorem contains_list_element_cex :
    ((pys "soy") ∈ [pys "soy"]) ∧
    evalConstraint (MVal.list [pys "soy"])
      (Constraint.cContains (pys "soy")) = some false := by
  decide

/-- C8 (confirmed): (i) the optimization score of
`optimize_recipe_nutrition` equals the spec-side banded mean
(1.0 / 0.7 / 0.3 bands at the 0.8× and 0.5× thresholds, averaged over
positive targets, 1.0 when there are none); (ii) every analyzed nutrient
was triggered by `|target − current| > 0.1`, with `difference = target −
current`; (iii) every target nutrient whose gap exceeds 0.1 is analyzed
(the suggestion search runs for it); and (iv) concretely, with target
protein 50 and current 45 the banded score is 1.0 while boost suggestions
are still generated from a compatible protein-bearing ingredient. -/
theorem optimization_banded_score_and_trigger :
    (∀ (currentNutrition targetNutrition : List (PyStr × ℚ)),
      calcOptimizationScore currentNutrition targetNutrition =
        specBandedOptimizationScore currentNutrition targetNutrition) ∧
    (∀ (g : Guidelines) (db : NutDB) (r : Recipe)
        (targets : List (PyStr × ℚ)) (restrictions allergies : List PyStr),
      ∀ p ∈ (optimizeRecipeNutrition g db r targets restrictions
          allergies).nutrient_analysis,
        |p.2.difference| > 0.1 ∧ p.2.difference = p.2.target - p.2.current) ∧
    (∀ (g : Guidelines) (db : NutDB) (r : Recipe)
        (targets : List (PyStr × ℚ)) (restrictions allergies : List PyStr)
        (n : PyStr),
      n ∈ pyDedup (targets.map (fun p => p.1)) →
      |((targets.lookup n).getD 0) -
        ((r.nutritional_info.lookup n).getD 0)| > 0.1 →
      ∃ a, (n, a) ∈ (optimizeRecipeNutrition g db r targets restrictions
        allergies).nutrient_analysis) ∧
    ((optimizeRecipeNutrition emptyGuidelines proteinDB proteinRecipe
        [(pys "protein", 50)] [] []).optimization_score = 1 ∧
      (optimizeRecipeNutrition emptyGuidelines proteinDB proteinRecipe
        [(pys "protein", 50)] [] []).suggestions ≠ [] ∧
      (optimizeRecipeNutrition emptyGuidelines proteinDB proteinRecipe
        [(pys "protein", 50)] [] []).nutrient_analysis =
        [(pys "protein", ⟨45, 50, 5, 1⟩)]) := by
  refine ⟨?_, ?_, ?_, ?_⟩
  · intro currentNutrition targetNutrition
    unfold calcOptimizationScore specBandedOptimizationScore
    by_cases h : targetNutrition.isEmpty
    · have : targetNutrition = [] := by simpa using h
      subst this
      simp [pyDedup, pyDedupAux, meanScoreOrOne]
    · rw [if_neg h]
      refine congrArg meanScoreOrOne ?_
      apply List.filterMap_congr
      intro n _
      simp only [mul_comm (0.8 : ℚ), mul_comm (0.5 : ℚ)]
  · intro g db r targets restrictions allergies p hp
    unfold optimizeRecipeNutrition at hp
    simp only [List.mem_map, List.mem_filter] at hp
    obtain ⟨q, ⟨_, hq⟩, rfl⟩ := hp
    refine ⟨by simpa using hq, by simp⟩
  · intro g db r targets restrictions allergies n hn hgap
    unfold optimizeRecipeNutrition
    simp only [List.mem_map, List.mem_filter]
    refine ⟨_, (n, (targets.lookup n).getD 0), ⟨⟨n, hn, rfl⟩, ?_⟩, rfl⟩
    simpa using hgap
  · with_unfolding_all decide

/-- Witness for `optimization_banded_score_and_trigger`: the triggered
analysis entry of the protein scenario, obtained by applying the
(ii) conjunct to the concrete run. -/
theorem optimization_trigger_witness :
    ((pys "protein", NutrientAnalysis.mk 45 50 5 1) ∈
      (optimizeRecipeNutrition emptyGuidelines proteinDB proteinRecipe
        [(pys "protein", 50)] [] []).nutrient_analysis) ∧
    (|(NutrientAnalysis.mk 45 50 5 1).difference| > 0.1 ∧
      (NutrientAnalysis.mk 45 50 5 1).difference =
        (NutrientAnalysis.mk 45 50 5 1).target -
          (NutrientAnalysis.mk 45 50 5 1).current) :=
  ⟨by with_unfolding_all decide,
    optimization_banded_score_and_trigger.2.1 emptyGuidelines proteinDB
      proteinRecipe [(pys "protein", 50)] [] []
      (pys "protein", NutrientAnalysis.mk 45 50 5 1)
      (by with_unfolding_all decide)⟩

theorem searchRecipes_ok_elim {g : Guidelines} {recipes : List Recipe}
    {store : Store} {sims : List ℚ} {query : PyStr}
    {restrictions allergies healthConditions : List PyStr} {nResults : Nat}
    {includeDynamic : Bool} {generated : List Recipe} {out : SearchOut}
    (h : searchRecipes g recipes store sims query restrictions allergies
      healthConditions nResults includeDynamic generated = .ok out) :
    ∃ cands, mergedCandidates g recipes store sims restrictions allergies
        healthConditions nResults includeDynamic generated = .ok cands ∧
      out.results = (dedupByTitleAux []
        (sortByDesc (fun e => e.overall_score) cands)).take nResults ∧
      out.total_found = (dedupByTitleAux []
        (sortByDesc (fun e => e.overall_score) cands)).length := by
  unfold searchRecipes at h
  cases hm : mergedCandidates g recipes store sims restrictions allergies
      healthConditions nResults includeDynamic generated with
  | error e => rw [hm] at h; exact absurd h (by simp)
  | ok cands =>
    rw [hm] at h
    simp only [Except.ok.injEq] at h
    subst h
    exact ⟨cands, rfl, rfl, rfl⟩

theorem mergedCandidates_ok_elim {g : Guidelines} {recipes : List Recipe}
    {store : Store} {sims : List ℚ}
    {restrictions allergies healthConditions : List PyStr} {nResults : Nat}
    {includeDynamic : Bool} {generated : List Recipe}
    {cands : List SearchEntry}
    (h : mergedCandidates g recipes store sims restrictions allergies
      healthConditions nResults includeDynamic generated = .ok cands) :
    ∃ searchResults staticEntries,
      storeSearchRecipes store sims (nResults * 2)
        (buildFilterDict g restrictions allergies healthConditions) =
        .ok searchResults ∧
      analyzeStaticHits g recipes restrictions allergies healthConditions
        ((searchResults.distances.max?).getD 0)
        (zip4 searchResults.ids searchResults.documents
          searchResults.metadatas searchResults.distances) =
        .ok staticEntries ∧
      cands = staticEntries ++
        (if includeDynamic then
          (generated.take nResults).map
            (dynamicEntry g restrictions allergies healthConditions)
        else []) := by
  unfold mergedCandidates at h
  cases hs : storeSearchRecipes store sims (nResults * 2)
      (buildFilterDict g restrictions allergies healthConditions) with
  | error e => simp only [hs] at h; exact absurd h (by simp)
  | ok searchResults =>
    simp only [hs] at h
    cases ha : analyzeStaticHits g recipes restrictions allergies
        healthConditions ((searchResults.distances.max?).getD 0)
        (zip4 searchResults.ids searchResults.documents
          searchResults.metadatas searchResults.distances) with
    | error e => simp only [ha] at h; exact absurd h (by simp)
    | ok staticEntries =>
      simp only [ha, Except.ok.injEq] at h
      exact ⟨searchResults, staticEntries, rfl, ha, h.symm⟩

theorem mem_results_mem_cands {cands : List SearchEntry} {nResults : Nat}
    {e : SearchEntry}
    (he : e ∈ (dedupByTitleAux []
      (sortByDesc (fun e => e.overall_score) cands)).take nResults) :
    e ∈ cands :=
  (mem_sortByDesc _ _ _).mp
    (mem_dedupByTitleAux _ _ (List.mem_of_mem_take he)).1

/-- C7 (confirmed): for every successful `search_recipes` call the results
list has length at most `n_results` and at most the returned
`total_found`. -/
theorem searchRecipes_bounded_output (g : Guidelines) (recipes : List Recipe)
    (store : Store) (sims : List ℚ) (query : PyStr)
    (restrictions allergies healthConditions : List PyStr) (nResults : Nat)
    (includeDynamic : Bool) (generated : List Recipe) (out : SearchOut)
    (h : searchRecipes g recipes store sims query restrictions allergies
      healthConditions nResults includeDynamic generated = .ok out) :
    out.results.length ≤ nResults ∧
    out.results.length ≤ out.total_found := by
  obtain ⟨cands, _, hres, htot⟩ := searchRecipes_ok_elim h
  constructor
  · rw [hres]
    exact List.length_take_le _ _
  · rw [hres, htot, List.length_take]
    exact Nat.min_le_right _ _

/-- Witness for `searchRecipes_bounded_output` on a concrete dynamic-only
run. -/
theorem searchRecipes_bounded_output_witness :
    (searchRecipes emptyGuidelines [] emptyStore [] (pys "pasta") [] [] [] 5
      true [dynRecipe] = .ok dynRunOut) ∧
    (dynRunOut.results.length ≤ 5 ∧
      dynRunOut.results.length ≤ dynRunOut.total_found) :=
  ⟨by with_unfolding_all rfl,
    searchRecipes_bounded_output emptyGuidelines [] emptyStore [] (pys "pasta")
      [] [] [] 5 true [dynRecipe] dynRunOut (by with_unfolding_all rfl)⟩

/-- C6 (confirmed): in every successful `search_recipes` result list no two
entries share a recipe title, and the entry kept for a title scores at
least as high as **every** merged candidate bearing that title (the list is
sorted descending by `overall_score` before the first-occurrence-wins
deduplication, so the kept instance is a maximal one). -/
theorem searchRecipes_dedup_keeps_max (g : Guidelines) (recipes : List Recipe)
    (store : Store) (sims : List ℚ) (query : PyStr)
    (restrictions allergies healthConditions : List PyStr) (nResults : Nat)
    (includeDynamic : Bool) (generated : List Recipe) (out : SearchOut)
    (cands : List SearchEntry)
    (hm : mergedCandidates g recipes store sims restrictions allergies
      healthConditions nResults includeDynamic generated = .ok cands)
    (h : searchRecipes g recipes store sims query restrictions allergies
      healthConditions nResults includeDynamic generated = .ok out) :
    out.results.Pairwise (fun a b => a.recipe.title ≠ b.recipe.title) ∧
    ∀ e ∈ out.results, ∀ c ∈ cands,
      c.recipe.title = e.recipe.title →
      c.overall_score ≤ e.overall_score := by
  obtain ⟨cands', hm', hres, _⟩ := searchRecipes_ok_elim h
  rw [hm'] at hm
  simp only [Except.ok.injEq] at hm
  subst hm
  constructor
  · rw [hres]
    exact List.Pairwise.sublist (List.take_sublist _ _)
      (pairwise_ne_dedupByTitleAux [] _)
  · intro e he c hc htitle
    rw [hres] at he
    exact dedupByTitleAux_max [] _
      (pairwise_sortByDesc (fun e => e.overall_score) cands')
      e (List.mem_of_mem_take he) c ((mem_sortByDesc _ _ _).mpr hc) htitle

/-- Witness for `searchRecipes_dedup_keeps_max` on a concrete dynamic-only
run. -/
theorem searchRecipes_dedup_keeps_max_witness :
    (mergedCandidates emptyGuidelines [] emptyStore [] [] [] [] 5 true
      [dynRecipe] = .ok dynRunCands) ∧
    (searchRecipes emptyGuidelines [] emptyStore [] (pys "pasta") [] [] [] 5
      true [dynRecipe] = .ok dynRunOut) ∧
    (dynRunOut.results.Pairwise
      (fun a b => a.recipe.title ≠ b.recipe.title) ∧
    ∀ e ∈ dynRunOut.results, ∀ c ∈ dynRunCands,
      c.recipe.title = e.recipe.title →
      c.overall_score ≤ e.overall_score) :=
  ⟨by with_unfolding_all rfl, by with_unfolding_all rfl,
    searchRecipes_dedup_keeps_max emptyGuidelines [] emptyStore [] (pys "pasta")
      [] [] [] 5 true [dynRecipe] dynRunOut dynRunCands
      (by with_unfolding_all rfl) (by with_unfolding_all rfl)⟩

theorem analyzeStaticHits_fusion (g : Guidelines) (recipes : List Recipe)
    (restrictions allergies healthConditions : List PyStr) (maxDistance : ℚ) :
    ∀ (hits : List (PyStr × PyStr × Metadata × ℚ)) (es : List SearchEntry),
      analyzeStaticHits g recipes restrictions allergies healthConditions
        maxDistance hits = .ok es →
      ∀ e ∈ es, e.overall_score =
        calculateOverallScore e.search_score e.compatibility.overall_score ∧
        e.search_score = 1 - e.distance / maxDistance
  | [], es, h => by
    simp only [analyzeStaticHits, Except.ok.injEq] at h
    subst h
    simp
  | (i, document, metadata, distance) :: rest, es, h => by
    rw [analyzeStaticHits] at h
    cases hr : findRecipeByText recipes document with
    | none =>
      simp only [hr] at h
      exact analyzeStaticHits_fusion g recipes restrictions allergies
        healthConditions maxDistance rest es h
    | some r =>
      simp only [hr] at h
      by_cases hmax : maxDistance = 0
      · rw [if_pos hmax] at h
        exact absurd h (by simp)
      · rw [if_neg hmax] at h
        cases ht : analyzeStaticHits g recipes restrictions allergies
            healthConditions maxDistance rest with
        | error e => simp only [ht] at h; exact absurd h (by simp)
        | ok es' =>
          simp only [ht, Except.ok.injEq] at h
          subst h
          intro e he
          rcases List.mem_cons.mp he with rfl | he
          · exact ⟨rfl, rfl⟩
          · exact analyzeStaticHits_fusion g recipes restrictions allergies
              healthConditions maxDistance rest es' ht e he

/-- C3 (corrected): every entry of a successful `search_recipes` result is
either a synthetic candidate — fixed `search_score = 0.8` and
`overall_score = compatibility × 0.8` — or a statically indexed hit whose
`overall_score` is the claimed fusion `search_score×0.6 +
compatibility×0.4` with `search_score = 1 − distance/max(distances)`.
The claim's assertion that the 0.6/0.4 fusion also covers synthetic
candidates is false: the code multiplies instead of fusing for them (see
the counterexample). -/
theorem searchRecipes_score_fusion (g : Guidelines) (recipes : List Recipe)
    (store : Store) (sims : List ℚ) (query : PyStr)
    (restrictions allergies healthConditions : List PyStr) (nResults : Nat)
    (includeDynamic : Bool) (generated : List Recipe) (out : SearchOut)
    (searchResults : StoreOut)
    (hs : storeSearchRecipes store sims (nResults * 2)
      (buildFilterDict g restrictions allergies healthConditions) =
      .ok searchResults)
    (h : searchRecipes g recipes store sims query restrictions allergies
      healthConditions nResults includeDynamic generated = .ok out) :
    ∀ e ∈ out.results,
      (e.search_score = 0.8 ∧
        e.overall_score = e.compatibility.overall_score * 0.8) ∨
      (e.overall_score =
        calculateOverallScore e.search_score e.compatibility.overall_score ∧
       e.search_score =
        1 - e.distance / ((searchResults.distances.max?).getD 0)) := by
  obtain ⟨cands, hm, hres, _⟩ := searchRecipes_ok_elim h
  obtain ⟨searchResults', staticEntries, hs', ha, rfl⟩ :=
    mergedCandidates_ok_elim hm
  rw [hs] at hs'
  simp only [Except.ok.injEq] at hs'
  subst hs'
  intro e he
  rw [hres] at he
  rcases List.mem_append.mp (mem_results_mem_cands he) with hst | hdy
  · exact Or.inr (analyzeStaticHits_fusion g recipes restrictions allergies
      healthConditions _ _ staticEntries ha e hst)
  · left
    cases includeDynamic with
    | false => simp at hdy
    | true =>
      simp only [if_true, List.mem_map] at hdy
      obtain ⟨r, _, rfl⟩ := hdy
      exact ⟨rfl, rfl⟩

/-- C3 counterexample: a run whose single result is synthetic has
`search_score = 0.8`, compatibility 1.0, `overall_score = 0.8` — but the
claimed formula `search_score×0.6 + compatibility×0.4` gives 0.88 ≠ 0.8. -/
theorem searchRecipes_dynamic_score_cex :
    (searchRecipes emptyGuidelines [] emptyStore [] (pys "pasta") [] [] [] 5
      true [dynRecipe] = .ok dynRunOut) ∧
    (dynRunOut.results.map
      (fun e => (e.search_score, e.compatibility.overall_score,
        e.overall_score)) = [(4/5, 1, 4/5)]) ∧
    (4 : ℚ)/5 ≠ calculateOverallScore (4/5) 1 := by
  refine ⟨by with_unfolding_all rfl, by with_unfolding_all decide, ?_⟩
  unfold calculateOverallScore
  norm_num

/-- Witness for `searchRecipes_score_fusion` on the concrete dynamic-only
run. -/
theorem searchRecipes_score_fusion_witness :
    (storeSearchRecipes emptyStore [] (5 * 2)
      (buildFilterDict emptyGuidelines [] [] []) = .ok dynRunStoreOut) ∧
    (searchRecipes emptyGuidelines [] emptyStore [] (pys "pasta") [] [] [] 5
      true [dynRecipe] = .ok dynRunOut) ∧
    (∀ e ∈ dynRunOut.results,
      (e.search_score = 0.8 ∧
        e.overall_score = e.compatibility.overall_score * 0.8) ∨
      (e.overall_score =
        calculateOverallScore e.search_score e.compatibility.overall_score ∧
       e.search_score =
        1 - e.distance / ((dynRunStoreOut.distances.max?).getD 0))) :=
  ⟨by with_unfolding_all rfl, by with_unfolding_all rfl,
    searchRecipes_score_fusion emptyGuidelines [] emptyStore [] (pys "pasta")
      [] [] [] 5 true [dynRecipe] dynRunOut dynRunStoreOut
      (by with_unfolding_all rfl) (by with_unfolding_all rfl)⟩

theorem analyzeStaticHits_zero_max (g : Guidelines) (recipes : List Recipe)
    (restrictions allergies healthConditions : List PyStr) :
    ∀ hits : List (PyStr × PyStr × Metadata × ℚ),
      (∃ hit ∈ hits, (findRecipeByText recipes hit.2.1).isSome = true) →
      analyzeStaticHits g recipes restrictions allergies healthConditions 0
        hits = .error .zeroDivisionError
  | [], h => by simp at h
  | (i, document, metadata, distance) :: rest, h => by
    rw [analyzeStaticHits]
    cases hr : findRecipeByText recipes document with
    | some r => simp [hr]
    | none =>
      simp only [hr]
      apply analyzeStaticHits_zero_max g recipes restrictions allergies
        healthConditions rest
      rcases h with ⟨hit, hmem, hsome⟩
      rcases List.mem_cons.mp hmem with rfl | hmem
      · rw [hr] at hsome
        simp at hsome
      · exact ⟨hit, hmem, hsome⟩

/-- C5 (corrected): the orchestrator's `search_score = 1 −
distance/max(distances)` computation is **not** guarded: whenever the
maximum distance over the returned hits is 0 and at least one hit resolves
to a recipe, `search_recipes` raises `ZeroDivisionError` instead of
yielding 0.0 or a neutral default. -/
theorem searchRecipes_division_unguarded (g : Guidelines)
    (recipes : List Recipe) (store : Store) (sims : List ℚ) (query : PyStr)
    (restrictions allergies healthConditions : List PyStr) (nResults : Nat)
    (includeDynamic : Bool) (generated : List Recipe)
    (searchResults : StoreOut)
    (hs : storeSearchRecipes store sims (nResults * 2)
      (buildFilterDict g restrictions allergies healthConditions) =
      .ok searchResults)
    (hmax : searchResults.distances.max? = some 0)
    (hres : ∃ hit ∈ zip4 searchResults.ids searchResults.documents
      searchResults.metadatas searchResults.distances,
      (findRecipeByText recipes hit.2.1).isSome = true) :
    searchRecipes g recipes store sims query restrictions allergies
      healthConditions nResults includeDynamic generated =
      .error .zeroDivisionError := by
  unfold searchRecipes mergedCandidates
  simp only [hs, hmax, Option.getD_some]
  rw [analyzeStaticHits_zero_max g recipes restrictions allergies
    healthConditions _ hres]

/-- C5 counterexample: a store whose only hit has distance 0 and resolves
to a loaded recipe makes `search_recipes` raise `ZeroDivisionError`,
contradicting the claimed guard. -/
theorem searchRecipes_division_by_zero_cex :
    searchRecipes emptyGuidelines [recipeA] storeA [1] (pys "q") [] [] [] 5
      false [] = .error PyError.zeroDivisionError := by
  with_unfolding_all rfl

/-- Witness for `searchRecipes_division_unguarded` on the concrete
zero-distance store. -/
theorem searchRecipes_division_unguarded_witness :
    (storeSearchRecipes storeA [1] (5 * 2)
      (buildFilterDict emptyGuidelines [] [] []) = .ok storeARunOut) ∧
    (storeARunOut.distances.max? = some 0) ∧
    (∃ hit ∈ zip4 storeARunOut.ids storeARunOut.documents
      storeARunOut.metadatas storeARunOut.distances,
      (findRecipeByText [recipeA] hit.2.1).isSome = true) ∧
    (searchRecipes emptyGuidelines [recipeA] storeA [1] (pys "q") [] [] [] 5
      false [] = .error .zeroDivisionError) :=
  ⟨by with_unfolding_all rfl, by with_unfolding_all decide,
    by with_unfolding_all decide,
    searchRecipes_division_unguarded emptyGuidelines [recipeA] storeA [1]
      (pys "q") [] [] [] 5 false [] storeARunOut
      (by with_unfolding_all rfl) (by with_unfolding_all decide)
      (by with_unfolding_all decide)⟩

theorem getRecipeMetadata_no_ingredients_key (r : Recipe) :
    (getRecipeMetadata r).lookup (pys "ingredients") = Option.none := rfl

theorem getRecipeMetadata_dietary_tags (r : Recipe) :
    (getRecipeMetadata r).lookup (pys "dietary_tags") =
      Option.some (MVal.list r.dietary_tags) := rfl

theorem entryMatches_ingredients_head (r : Recipe) (c : Constraint)
    (rest : FilterDict) :
    entryMatches (getRecipeMetadata r) ((pys "ingredients", c) :: rest) =
      .ok false := by
  rw [entryMatches]
  simp only [getRecipeMetadata_no_ingredients_key]

theorem entryMatches_dietary_then_ingredients (r : Recipe)
    (vs : List PyStr) (c : Constraint) (rest : FilterDict) :
    entryMatches (getRecipeMetadata r)
      ((pys "dietary_tags", Constraint.cIn vs) ::
        (pys "ingredients", c) :: rest) = .ok false := by
  rw [entryMatches]
  simp only [getRecipeMetadata_dietary_tags, evalConstraint]
  cases hb : vs.any (fun fv => r.dietary_tags.contains fv) with
  | false => rfl
  | true => exact entryMatches_ingredients_head r c rest

theorem applyFiltersAux_all_false (f : FilterDict) :
    ∀ (i : Nat) (ms : List Metadata),
      (∀ m ∈ ms, entryMatches m f = .ok false) →
      applyFiltersAux f i ms = .ok []
  | _, [], _ => rfl
  | i, m :: ms, h => by
    rw [applyFiltersAux]
    simp only [h m (List.mem_cons_self _ _)]
    rw [applyFiltersAux_all_false f (i + 1) ms
      (fun m' hm' => h m' (List.mem_cons_of_mem _ hm'))]
    simp

theorem filter_contains_nil (l : List (Nat × ℚ)) :
    l.filter (fun p => ([] : List Nat).contains p.1) = [] := by
  induction l with
  | nil => rfl
  | cons x xs ih => simp [List.filter, ih]

theorem buildFilterDict_allergy_excludes_all (g : Guidelines)
    (restr allerg health : List PyStr)
    (hinc : allergyIncompatibleIngredients g allerg ≠ []) :
    ∃ f, buildFilterDict g restr allerg health = Option.some f ∧
      f.isEmpty = false ∧
      ∀ r : Recipe, entryMatches (getRecipeMetadata r) f = .ok false := by
  have hal : allerg.isEmpty = false := by
    cases allerg with
    | nil => exact absurd rfl hinc
    | cons a as_ => rfl
  have hincE : (allergyIncompatibleIngredients g allerg).isEmpty = false := by
    cases h : allergyIncompatibleIngredients g allerg with
    | nil => exact absurd h hinc
    | cons x xs => rfl
  unfold buildFilterDict
  simp only [hal, hincE, Bool.not_false, Bool.and_self, if_true]
  by_cases hr : restr.isEmpty
  · simp only [hr, Bool.not_true, Bool.false_eq_true, if_false,
      List.nil_append, List.cons_append, List.isEmpty_cons,
      Bool.false_eq_true]
    exact ⟨_, rfl, rfl, fun r => entryMatches_ingredients_head r _ _⟩
  · have hr' : restr.isEmpty = false := by
      cases hre : restr.isEmpty with
      | false => rfl
      | true => exact absurd hre hr
    simp only [hr', Bool.not_false, if_true, List.cons_append,
      List.singleton_append, List.isEmpty_cons, Bool.false_eq_true,
      if_false]
    exact ⟨_, rfl, rfl,
      fun r => entryMatches_dietary_then_ingredients r _ _ _⟩

/-- C10 (confirmed): (i) an index entry whose metadata lacks a constrained
field never matches the filter, whichever constraint (including
`$not_contains`) names that field; (ii) the metadata built by
`get_recipe_metadata` has no `ingredients` field; hence (iii) whenever the
profile's allergies yield a non-empty incompatible-ingredient list, the
built filter carries an `ingredients` constraint, the vector search over
statically indexed recipes returns no hits at all, and every entry of the
merged search output is a synthetic (dynamically generated) candidate. -/
theorem missing_field_excludes_static_recipes :
    (∀ (m : Metadata) (f : FilterDict) (key : PyStr) (c : Constraint),
      (key, c) ∈ f → m.lookup key = Option.none →
      entryMatches m f ≠ .ok true) ∧
    (∀ r : Recipe,
      (getRecipeMetadata r).lookup (pys "ingredients") = Option.none) ∧
    (∀ (g : Guidelines) (recipes storeRecipes : List Recipe) (store : Store)
        (sims : List ℚ) (query : PyStr)
        (restrictions allergies healthConditions : List PyStr)
        (nResults : Nat) (includeDynamic : Bool) (generated : List Recipe)
        (out : SearchOut),
      store.metadatas = storeRecipes.map getRecipeMetadata →
      allergyIncompatibleIngredients g allergies ≠ [] →
      searchRecipes g recipes store sims query restrictions allergies
        healthConditions nResults includeDynamic generated = .ok out →
      storeSearchRecipes store sims (nResults * 2)
        (buildFilterDict g restrictions allergies healthConditions) =
        .ok ⟨[], [], [], []⟩ ∧
      ∀ e ∈ out.results, e.recipe ∈ generated.take nResults) := by
  refine ⟨?_, getRecipeMetadata_no_ingredients_key, ?_⟩
  · intro m f
    induction f with
    | nil => intro key c hmem; simp at hmem
    | cons kc rest ih =>
      intro key c hmem hnone
      obtain ⟨k', c'⟩ := kc
      rw [entryMatches]
      cases hk : m.lookup k' with
      | none => simp
      | some v =>
        simp only [hk]
        rcases List.mem_cons.mp hmem with heq | hmem'
        · cases heq
          rw [hnone] at hk
          exact absurd hk (by simp)
        · cases he : evalConstraint v c' with
          | none => simp [he]
          | some b =>
            cases b with
            | false => simp [he]
            | true =>
              simp only [he]
              exact ih key c hmem' hnone
  · intro g recipes storeRecipes store sims query restrictions allergies
      healthConditions nResults includeDynamic generated out hmeta hinc h
    obtain ⟨f, hf, hfne, hall⟩ :=
      buildFilterDict_allergy_excludes_all g restrictions allergies
        healthConditions hinc
    have hstore : storeSearchRecipes store sims (nResults * 2)
        (buildFilterDict g restrictions allergies healthConditions) =
        .ok ⟨[], [], [], []⟩ := by
      rw [hf]
      unfold storeSearchRecipes
      have happ : applyFilters store.metadatas f = .ok [] := by
        unfold applyFilters
        apply applyFiltersAux_all_false
        intro m hm
        rw [hmeta] at hm
        obtain ⟨r, _, rfl⟩ := List.mem_map.mp hm
        exact hall r
      simp only [hfne, Bool.false_eq_true, if_false, happ,
        filter_contains_nil, List.take_nil, List.map_nil]
    refine ⟨hstore, ?_⟩
    obtain ⟨cands, hm', hres, _⟩ := searchRecipes_ok_elim h
    obtain ⟨searchResults, staticEntries, hs, ha, rfl⟩ :=
      mergedCandidates_ok_elim hm'
    rw [hstore] at hs
    simp only [Except.ok.injEq] at hs
    subst hs
    have hse : staticEntries = [] := by
      simp only [zip4, analyzeStaticHits, Except.ok.injEq] at ha
      exact ha.symm
    subst hse
    intro e he
    have hec := mem_results_mem_cands (hres ▸ he)
    simp only [List.nil_append] at hec
    cases includeDynamic with
    | false => simp at hec
    | true =>
      simp only [if_true, List.mem_map] at hec
      obtain ⟨r, hr, rfl⟩ := hec
      exact hr

/-- Witness for `missing_field_excludes_static_recipes` on a concrete
store: one indexed recipe (metadata via `get_recipe_metadata`), a dairy
allergy, one synthetic candidate — the only result is the synthetic one. -/
theorem missing_field_excludes_static_recipes_witness :
    (storeB.metadatas = [staticRecipeB].map getRecipeMetadata) ∧
    (allergyIncompatibleIngredients dairyGuidelines [pys "dairy"] ≠ []) ∧
    (searchRecipes dairyGuidelines [staticRecipeB] storeB [1] (pys "q") []
      [pys "dairy"] [] 5 true [dynRecipeC] = .ok allergyRunOut) ∧
    (storeSearchRecipes storeB [1] (5 * 2)
      (buildFilterDict dairyGuidelines [] [pys "dairy"] []) =
      .ok ⟨[], [], [], []⟩ ∧
    ∀ e ∈ allergyRunOut.results, e.recipe ∈ [dynRecipeC].take 5) :=
  ⟨rfl, by decide, by with_unfolding_all rfl,
    missing_field_excludes_static_recipes.2.2 dairyGuidelines [staticRecipeB]
      [staticRecipeB] storeB [1] (pys "q") [] [pys "dairy"] [] 5 true
      [dynRecipeC] allergyRunOut rfl (by decide)
      (by with_unfolding_all rfl)⟩
